import Mathlib

/-!
Shallow embedding of the authenticated request layer of
`src/frontend/lib/apiClient.js` (class `ApiClient`), together with proofs
about its token store, request construction, response decoding, login, and
the 401-refresh coordination.

Modelling conventions:
* JavaScript values appearing in response bodies are modelled by `JsonV`.
  A missing field / `undefined` is `Option.none`.
* `localStorage` and the in-memory token fields form the `Store` structure;
  `setToken`, `setRefreshToken`, `clearToken`, `login` are direct
  translations of the corresponding methods.
* The single-threaded JavaScript event loop is modelled by a small-step
  semantics: each `Ev` event is the completion of one in-flight network
  call, and `step` runs the continuation of the awaiting code up to its
  next suspension point, exactly following the control flow of
  `ApiClient.request` / `ApiClient.attemptTokenRefresh`.
-/

/-- JavaScript JSON-like values, as produced by parsing a response body.
Arrays are not needed by any code path studied here. -/
inductive JsonV where
  | null
  | boolV (b : Bool)
  | num (n : Int)
  | str (s : String)
  | obj (fields : List (String × JsonV))

/-- Property access `j.k` in JavaScript: `some` when the field exists on an
object, `none` (undefined) otherwise. -/
def jsGet (j : JsonV) (k : String) : Option JsonV :=
  match j with
  | .obj fs => fs.lookup k
  | _ => none

/-- JavaScript truthiness of a possibly-undefined value, as used by
`data.detail || …` and `if (data.refresh_token)`. -/
def jsTruthyV : Option JsonV → Bool
  | none => false
  | some .null => false
  | some (.boolV b) => b
  | some (.num n) => n != 0
  | some (.str s) => s != ""
  | some (.obj _) => true

/-- JavaScript string conversion `String(v)`, the message stored by
`new Error(v)` for a non-string argument. -/
def jsToMessage : JsonV → String
  | .null => "null"
  | .boolV b => cond b "true" "false"
  | .num n => toString n
  | .str s => s
  | .obj _ => "[object Object]"

/-- Extract a string-valued field; non-string values are not produced by the
backend for the token fields, and are modelled as absent. -/
def asJsString : Option JsonV → Option String
  | some (.str s) => some s
  | _ => none

mutual

/-- The platform `JSON.stringify` on `JsonV` values (string escaping of the
exotic characters is elided; the repository never stores such strings). -/
def jsonStringify : JsonV → String
  | .null => "null"
  | .boolV b => cond b "true" "false"
  | .num n => toString n
  | .str s => "\"" ++ s ++ "\""
  | .obj fs => "\x7b" ++ jsonStringifyFields fs ++ "\x7d"

/-- Comma-separated `"key":value` entries of an object literal. -/
def jsonStringifyFields : List (String × JsonV) → String
  | [] => ""
  | [(k, v)] => "\"" ++ k ++ "\":" ++ jsonStringify v
  | (k, v) :: rest =>
      "\"" ++ k ++ "\":" ++ jsonStringify v ++ "," ++ jsonStringifyFields rest

end

/-- JavaScript `s.includes(sub)`: substring occurrence test. -/
def strIncludes (s sub : String) : Bool :=
  (List.range (s.data.length + 1)).any (fun i => sub.data.isPrefixOf (s.data.drop i))

/-- Truthiness of a possibly-null string (`this.refreshToken`,
`this.token`): `null` / `undefined` / `""` are falsy. -/
def optStrTruthy : Option String → Bool
  | none => false
  | some s => s != ""

/-- The token store: the in-memory fields `this.token` / `this.refreshToken`
and the three `localStorage` entries `accessToken`, `refreshToken`, `user`. -/
structure Store where
  token : Option String
  refreshToken : Option String
  lsAccess : Option String
  lsRefresh : Option String
  lsUser : Option String
deriving DecidableEq, Repr

/-- `ApiClient.setToken`: store an access token in memory and in
`localStorage` (generalised to a possibly-absent value, as JavaScript
does not restrict the argument). -/
def setToken (s : Store) (t : Option String) : Store :=
  { s with token := t, lsAccess := t }

/-- `ApiClient.setRefreshToken`. -/
def setRefreshToken (s : Store) (t : Option String) : Store :=
  { s with refreshToken := t, lsRefresh := t }

/-- `ApiClient.clearToken`: null both in-memory tokens and remove the three
persisted entries `accessToken`, `refreshToken`, `user`. -/
def clearToken (_ : Store) : Store :=
  { token := none, refreshToken := none,
    lsAccess := none, lsRefresh := none, lsUser := none }

/-- Request bodies as dispatched by `ApiClient.request`:
absent, a string (already serialised by the caller), a `FormData`
(multipart) value, or a structured non-`FormData` object. -/
inductive BodyV where
  | noBody
  | strB (s : String)
  | formB (parts : List (String × String))
  | objB (j : JsonV)

/-- The outgoing request configuration: final headers (a JavaScript object,
modelled as a map from exact header-name strings) and final body. -/
structure Config where
  headers : String → Option String
  body : BodyV

/-- Lines 83–105 of `ApiClient.request`: merge the default
`Content-Type: application/json` with caller headers, attach
`Authorization: Bearer <token>` when a token is present, JSON-serialise a
structured non-`FormData` object body, and delete the `Content-Type`
entry when the body is `FormData`. -/
def buildConfig (token : Option String) (optHeaders : String → Option String)
    (body : BodyV) : Config :=
  let headers0 : String → Option String := fun k =>
    match optHeaders k with
    | some v => some v
    | none => if k = "Content-Type" then some "application/json" else none
  let headers1 : String → Option String :=
    match token with
    | some t => if t = "" then headers0
                else Function.update headers0 "Authorization" (some ("Bearer " ++ t))
    | none => headers0
  let body1 : BodyV :=
    match body with
    | .objB j => .strB (jsonStringify j)
    | b => b
  let headers2 : String → Option String :=
    match body1 with
    | .formB _ => Function.update headers1 "Content-Type" none
    | _ => headers1
  { headers := headers2, body := body1 }

/-- An HTTP response as observed by the client: status, the `content-type`
header, and the raw body text. -/
structure Response where
  status : Nat
  contentType : Option String
  bodyText : String
deriving DecidableEq, Repr

/-- `response.ok`: status in the 2xx range. -/
def respOk (r : Response) : Bool :=
  decide (200 ≤ r.status) && decide (r.status ≤ 299)

/-- `contentType && contentType.includes('application/json')`. -/
def ctIsJson (r : Response) : Bool :=
  match r.contentType with
  | some ct => (ct != "") && strIncludes ct "application/json"
  | none => false

/-- The error taxonomy of the spec, as distinct kinds. `apiError` carries
the message string the code passes to `new Error(...)`. -/
inductive ErrKind where
  | apiError (msg : String)
  | parseFailure
  | networkFailure
  | refreshFailed
deriving DecidableEq, Repr

/-- Lines 143–151 of `ApiClient.request`: decode the response body. A JSON
content type parses the body (`response.json()`); otherwise an empty text
decodes to `{}` and a non-empty text is fed to `JSON.parse`. The platform
JSON reader is the parameter `parse`; `none` models a throw of
`SyntaxError`. -/
def decodeBody (parse : String → Option JsonV) (r : Response) :
    Except ErrKind JsonV :=
  if ctIsJson r then
    match parse r.bodyText with
    | some j => .ok j
    | none => .error .parseFailure
  else if r.bodyText = "" then .ok (.obj [])
  else
    match parse r.bodyText with
    | some j => .ok j
    | none => .error .parseFailure

/-- Line 154: the message of the error thrown for a non-ok response,
`data.detail || data.message || 'API request failed: <status>'`. -/
def errorMessage (status : Nat) (detail message : Option JsonV) : String :=
  if jsTruthyV detail then jsToMessage (detail.getD .null)
  else if jsTruthyV message then jsToMessage (message.getD .null)
  else "API request failed: " ++ toString status

/-- Lines 143–157 of `ApiClient.request` (after the 401-refresh branch):
decode the body, then either return it (2xx) or throw the API error. -/
def handleResponse (parse : String → Option JsonV) (r : Response) :
    Except ErrKind JsonV :=
  match decodeBody parse r with
  | .error e => .error e
  | .ok data =>
      if respOk r then .ok data
      else .error (.apiError (errorMessage r.status (jsGet data "detail") (jsGet data "message")))

/-- `ApiClient.login`, lines 178–192: given the parsed response body and
`response.ok`, either throw `data.detail || 'Login failed'`, or store the
access token, store the refresh token only when `data.refresh_token` is
truthy, and cache `data.user` under the `user` key. -/
def login (s : Store) (ok : Bool) (data : JsonV) : Except String Store :=
  if ok = false then
    Except.error (if jsTruthyV (jsGet data "detail")
                  then jsToMessage ((jsGet data "detail").getD .null)
                  else "Login failed")
  else
    let s1 := setToken s (asJsString (jsGet data "access_token"))
    let s2 := if jsTruthyV (jsGet data "refresh_token")
              then setRefreshToken s1 (asJsString (jsGet data "refresh_token"))
              else s1
    Except.ok { s2 with
      lsUser := some (match jsGet data "user" with
                      | some u => jsonStringify u
                      | none => "undefined") }

/-!
The refresh-coordination semantics. Each logical operation issued through
`ApiClient.request` is a task identified by a natural number. A task's
phase records where its JavaScript continuation is suspended:

* `idle`        — no operation issued by this task id;
* `fetching b`  — awaiting the `fetch` of the operation, issued with
                  `retryOnUnauthorized = b` (line 108);
* `awaitingRefresh` — this task took the `!this.isRefreshing` branch and
                  is awaiting the `fetch` inside `attemptTokenRefresh`;
* `waiting`     — this task was enqueued by `subscribeTokenRefresh` and is
                  suspended in the promise of lines 130–139;
* `done o`      — the operation resolved or rejected with outcome `o`.

`sent` counts the HTTP sends performed for the operation (the initial
send included); `lastAuth` is the `Authorization` header attached to the
most recent send.
-/

/-- Final outcome of an operation. -/
inductive Outcome where
  | success
  | apiError (msg : String)
  | refreshFailed
deriving DecidableEq, Repr

/-- Suspension point of a task's continuation. -/
inductive Phase where
  | idle
  | fetching (retryOn : Bool)
  | awaitingRefresh
  | waiting
  | done (o : Outcome)
deriving DecidableEq, Repr

/-- One logical operation flowing through `ApiClient.request`. -/
structure OpTask where
  phase : Phase
  sent : Nat
  lastAuth : Option String
deriving DecidableEq, Repr

/-- The whole client state: the token store, the coordination fields
`isRefreshing` / `refreshSubscribers`, all tasks, a counter of
`/auth/refresh` invocations, and whether the session-expired redirect to
`/login` has fired. -/
structure Sys where
  store : Store
  isRefreshing : Bool
  subscribers : List Nat
  tasks : Nat → OpTask
  refreshCalls : Nat
  redirected : Bool

/-- `Authorization` header value for a current token, following the
truthiness test of line 89: absent for `null` and for the empty string. -/
def bearer : Option String → Option String
  | none => none
  | some t => if t = "" then none else some ("Bearer " ++ t)

/-- Resend an operation (`this.request(endpoint, options, false)`): a fresh
fetch with the current token, non-retryable this second time. -/
def resend (tok : Option String) (t : OpTask) : OpTask :=
  { phase := .fetching false, sent := t.sent + 1, lastAuth := bearer tok }

/-- `ApiClient.onTokenRefreshed`: invoke each queued subscriber callback in
list order; a waiter's callback immediately starts the resend of its
operation (lines 131–138). -/
def notifyAll (tok : Option String) (tasks : Nat → OpTask) : List Nat → (Nat → OpTask)
  | [] => tasks
  | j :: rest => notifyAll tok (Function.update tasks j (resend tok (tasks j))) rest

/-- Completion of task `i`'s in-flight operation fetch with a 401 whose
parsed body has fields `d` (`detail`) and `m` (`message`): lines 111–140.
With `retryOnUnauthorized` and a truthy refresh token, either start the
refresh (setting `isRefreshing` and sending the `/auth/refresh` fetch with
no intervening suspension) or enqueue the task as a waiter; otherwise the
401 falls through to the decode-and-throw path of lines 143–155. -/
def step401 (s : Sys) (i : Nat) (d m : Option JsonV) : Sys :=
  match (s.tasks i).phase with
  | .fetching retryOn =>
    if retryOn && optStrTruthy s.store.refreshToken then
      if !s.isRefreshing then
        { s with isRefreshing := true, refreshCalls := s.refreshCalls + 1,
                 tasks := Function.update s.tasks i
                   ({ s.tasks i with phase := .awaitingRefresh }) }
      else
        { s with subscribers := s.subscribers ++ [i],
                 tasks := Function.update s.tasks i
                   ({ s.tasks i with phase := .waiting }) }
    else
      { s with tasks := Function.update s.tasks i
                 ({ s.tasks i with phase := .done (.apiError (errorMessage 401 d m)) }) }
  | _ => s

/-- Completion of task `i`'s operation fetch with a success response. -/
def stepOk (s : Sys) (i : Nat) : Sys :=
  match (s.tasks i).phase with
  | .fetching _ =>
      { s with tasks := Function.update s.tasks i
                 ({ s.tasks i with phase := .done .success }) }
  | _ => s

/-- Successful completion of the in-flight `/auth/refresh` fetch with new
access token `tok`: `attemptTokenRefresh` stores the token (line 73), then
lines 116–119 reset `isRefreshing`, notify and drain the subscriber list,
and resend the triggering operation. All of this runs before the next
suspension point, hence in one step. -/
def stepRefreshOk (s : Sys) (tok : String) : Sys :=
  if s.isRefreshing then
    let st := setToken s.store (some tok)
    let ts1 := notifyAll st.token s.tasks s.subscribers
    { store := st, isRefreshing := false, subscribers := [],
      refreshCalls := s.refreshCalls, redirected := s.redirected,
      tasks := fun j =>
        if (ts1 j).phase = .awaitingRefresh then resend st.token (ts1 j) else ts1 j }
  else s

/-- Failed completion of the in-flight `/auth/refresh` fetch (non-ok status
or network error): `attemptTokenRefresh` clears the whole session
(line 77) and rethrows; lines 121–126 reset `isRefreshing`, redirect to
`/login`, and reject the triggering caller. The subscriber list and the
waiting tasks are not touched by this path. -/
def stepRefreshErr (s : Sys) : Sys :=
  if s.isRefreshing then
    { s with store := clearToken s.store, isRefreshing := false, redirected := true,
             tasks := fun j =>
               if (s.tasks j).phase = .awaitingRefresh
               then { s.tasks j with phase := .done .refreshFailed } else s.tasks j }
  else s

/-- Environment events: completion of one in-flight network call. -/
inductive Ev where
  | resp401 (i : Nat) (d m : Option JsonV)
  | respOk (i : Nat)
  | refreshOk (tok : String)
  | refreshErr

/-- One step of the event-loop semantics. -/
def step (s : Sys) : Ev → Sys
  | .resp401 i d m => step401 s i d m
  | .respOk i => stepOk s i
  | .refreshOk tok => stepRefreshOk s tok
  | .refreshErr => stepRefreshErr s

/-- Run a list of events in order. -/
def runEvs (s : Sys) : List Ev → Sys
  | [] => s
  | e :: es => runEvs (step s e) es

/-- A task that has issued its operation and awaits the first response. -/
def initTask (auth : Option String) : OpTask :=
  { phase := .fetching true, sent := 1, lastAuth := auth }

/-- A task id with no operation. -/
def idleTask : OpTask :=
  { phase := .idle, sent := 0, lastAuth := none }

/-- The scenario start state: access token `acc` and refresh token `rt`
persisted, `n` operations concurrently in flight, no refresh running. -/
def initSys (n : Nat) (acc : Option String) (rt : String) : Sys :=
  { store := { token := acc, refreshToken := some rt,
               lsAccess := acc, lsRefresh := some rt, lsUser := none },
    isRefreshing := false, subscribers := [], refreshCalls := 0, redirected := false,
    tasks := fun j => if j < n then initTask (bearer acc) else idleTask }

/-- Recogniser for 401-completion events. -/
def Ev.isResp401 : Ev → Bool
  | .resp401 .. => true
  | _ => false

/-- Coordination fields pinned during a refresh window in which only 401
responses arrive: the refresh is in flight, exactly one `/auth/refresh`
call has been issued, and the refresh token is still available. -/
def RefreshWindowInv (s : Sys) : Prop :=
  s.isRefreshing = true ∧ s.refreshCalls = 1 ∧ optStrTruthy s.store.refreshToken = true

/-- Per-operation bookkeeping invariant: an operation still on its first
round (first fetch in flight, queued as a waiter, or running the refresh)
has performed exactly one send, and no operation ever performs more than
two sends. -/
def OpTaskInv (t : OpTask) : Prop :=
  ((t.phase = .fetching true ∨ t.phase = .waiting ∨ t.phase = .awaitingRefresh) →
      t.sent = 1)
  ∧ t.sent ≤ 2

/-- System invariant: the subscriber list has no duplicates and only holds
ids of waiting tasks, and every task satisfies `OpTaskInv`. -/
def SysInv (s : Sys) : Prop :=
  s.subscribers.Nodup
  ∧ (∀ j ∈ s.subscribers, (s.tasks j).phase = .waiting)
  ∧ (∀ j, OpTaskInv (s.tasks j))

/-- Effect of delivering a batch of 401s to distinct first-round tasks
while a refresh is in flight: each such task is parked as a waiter, its id
is appended to the subscriber list, and nothing else changes. -/
def enqueuedState (s : Sys) (rest : List Nat) (s' : Sys) : Prop :=
  s'.store = s.store ∧ s'.isRefreshing = true ∧ s'.refreshCalls = s.refreshCalls
  ∧ s'.redirected = s.redirected
  ∧ s'.subscribers = s.subscribers ++ rest
  ∧ (∀ j ∈ rest, s'.tasks j = { s.tasks j with phase := Phase.waiting })
  ∧ (∀ j, j ∉ rest → s'.tasks j = s.tasks j)

/-- A concrete state in which operation 0 has already been retried once
after a successful refresh. -/
def retryScenario : Sys :=
  { store := { token := some "A2", refreshToken := some "R1",
               lsAccess := some "A2", lsRefresh := some "R1", lsUser := none },
    isRefreshing := false, subscribers := [],
    tasks := fun _ => { phase := .fetching false, sent := 2, lastAuth := some "Bearer A2" },
    refreshCalls := 1, redirected := false }

/-- The claim-C4 scenario run: all listed operations receive 401s, then
the in-flight refresh succeeds with new access token `tok`. -/
def fanoutRun (n : Nat) (acc : Option String) (rt tok : String) (is : List Nat) : Sys :=
  runEvs (initSys n acc rt) (is.map (fun j => Ev.resp401 j none none) ++ [Ev.refreshOk tok])

theorem runEvs_append (a b : List Ev) : ∀ s : Sys, runEvs s (a ++ b) = runEvs (runEvs s a) b := by
  induction a with
  | nil => intro s; rfl
  | cons e es ih =>
      intro s
      show runEvs (step s e) (es ++ b) = runEvs (runEvs (step s e) es) b
      exact ih (step s e)

theorem notifyAll_apply_of_not_mem (tok : Option String) (subs : List Nat) :
    ∀ (tasks : Nat → OpTask) (j : Nat), j ∉ subs → notifyAll tok tasks subs j = tasks j := by
  induction subs with
  | nil => intro tasks j _; rfl
  | cons a rest ih =>
      intro tasks j hj
      have hja : j ≠ a := fun h => hj (h ▸ List.mem_cons_self a rest)
      have hjr : j ∉ rest := fun h => hj (List.mem_cons_of_mem a h)
      show notifyAll tok (Function.update tasks a (resend tok (tasks a))) rest j = tasks j
      rw [ih _ j hjr, Function.update_noteq hja]

theorem notifyAll_apply_of_mem (tok : Option String) (subs : List Nat) :
    ∀ (tasks : Nat → OpTask) (j : Nat), subs.Nodup → j ∈ subs →
      notifyAll tok tasks subs j = resend tok (tasks j) := by
  induction subs with
  | nil => intro tasks j _ h; cases h
  | cons a rest ih =>
      intro tasks j hnd hj
      obtain ⟨hna, hndr⟩ := List.nodup_cons.mp hnd
      rcases List.mem_cons.mp hj with h | h
      · subst h
        show notifyAll tok (Function.update tasks j (resend tok (tasks j))) rest j = _
        rw [notifyAll_apply_of_not_mem tok rest _ j hna, Function.update_same]
      · have hja : j ≠ a := fun hh => hna (hh ▸ h)
        show notifyAll tok (Function.update tasks a (resend tok (tasks a))) rest j = _
        rw [ih _ j hndr h, Function.update_noteq hja]

/-- Claim C6: every call to `clearToken` removes all five entries — the two
in-memory tokens and the three persisted keys (`accessToken`,
`refreshToken`, `user`) — and, in the event-loop semantics, the store
visible after any single step is either unchanged, updated by a whole
`setToken`, or a whole `clearToken`: a partially cleared store is never
observable, since `clearToken` runs inside one atomic step. -/
theorem clear_session_atomic :
    (∀ s : Store, (clearToken s).token = none ∧ (clearToken s).refreshToken = none
      ∧ (clearToken s).lsAccess = none ∧ (clearToken s).lsRefresh = none
      ∧ (clearToken s).lsUser = none)
    ∧ (∀ (s : Sys) (e : Ev),
        (step s e).store = s.store
        ∨ (∃ t, (step s e).store = setToken s.store t)
        ∨ (step s e).store = clearToken s.store) := by
  constructor
  · intro s; exact ⟨rfl, rfl, rfl, rfl, rfl⟩
  · intro s e
    cases e with
    | resp401 i d m =>
        left
        show (step401 s i d m).store = s.store
        unfold step401
        split
        · split
          · split <;> rfl
          · rfl
        · rfl
    | respOk i =>
        left
        show (stepOk s i).store = s.store
        unfold stepOk
        split <;> rfl
    | refreshOk tok =>
        have hstep : step s (Ev.refreshOk tok) = stepRefreshOk s tok := rfl
        rw [hstep]
        unfold stepRefreshOk
        split
        · right; left; exact ⟨some tok, rfl⟩
        · left; rfl
    | refreshErr =>
        have hstep : step s Ev.refreshErr = stepRefreshErr s := rfl
        rw [hstep]
        unfold stepRefreshErr
        split
        · right; right; rfl
        · left; rfl

/-- Claim C7: a `FormData` body is passed through unmodified (never
JSON-serialised) and the outgoing headers carry no `Content-Type` entry,
while a structured non-`FormData` object body is JSON-serialised and the
`Content-Type` header is present — the caller's value when one was
supplied, the default `application/json` otherwise. -/
theorem binary_passthrough :
    (∀ (token : Option String) (optHeaders : String → Option String)
        (parts : List (String × String)),
        (buildConfig token optHeaders (.formB parts)).body = .formB parts
        ∧ (buildConfig token optHeaders (.formB parts)).headers "Content-Type" = none)
    ∧ (∀ (token : Option String) (optHeaders : String → Option String) (j : JsonV),
        (buildConfig token optHeaders (.objB j)).body = .strB (jsonStringify j)
        ∧ (buildConfig token optHeaders (.objB j)).headers "Content-Type"
            = some ((optHeaders "Content-Type").getD "application/json")) := by
  constructor
  · intro token optHeaders parts
    refine ⟨by cases token <;> simp [buildConfig], ?_⟩
    cases token with
    | none => simp [buildConfig]
    | some t =>
        by_cases ht : t = "" <;>
          simp [buildConfig, ht, Function.update_same]
  · intro token optHeaders j
    refine ⟨by cases token <;> simp [buildConfig], ?_⟩
    have hbase : (match optHeaders "Content-Type" with
        | some v => some v
        | none => if "Content-Type" = "Content-Type" then some "application/json" else none)
        = some ((optHeaders "Content-Type").getD "application/json") := by
      cases optHeaders "Content-Type" <;> simp
    cases token with
    | none => simpa [buildConfig] using hbase
    | some t =>
        by_cases ht : t = ""
        · simpa [buildConfig, ht] using hbase
        · have hne : "Content-Type" ≠ "Authorization" := by decide
          simpa [buildConfig, ht, Function.update_noteq hne] using hbase

theorem strIncludes_append_right (a b : String) : strIncludes (a ++ b) b = true := by
  unfold strIncludes
  rw [List.any_eq_true]
  refine ⟨a.data.length, ?_, ?_⟩
  · rw [List.mem_range]
    have : (a ++ b).data = a.data ++ b.data := by
      simp [String.data_append]
    rw [this, List.length_append]
    omega
  · have hd : (a ++ b).data.drop a.data.length = b.data := by
      have : (a ++ b).data = a.data ++ b.data := by
        simp [String.data_append]
      rw [this, List.drop_left]
    rw [hd]
    exact List.isPrefixOf_iff_prefix.mpr (List.prefix_refl _)

/-- Claim C8 fails as stated: the error built on line 154 is
`new Error(data.detail || data.message || "API request failed: <status>")`;
when the server supplies a `detail` (or `message`) field, the resulting
error is exactly that string and does not carry the status code anywhere.
Concrete input: a 500 response with JSON body `{"detail":"boom"}` produces
the error message `"boom"`, in which the status `500` does not occur. -/
theorem api_error_drops_status_counterexample :
    handleResponse
        (fun t => if t = "D" then some (.obj [("detail", .str "boom")]) else none)
        { status := 500, contentType := some "application/json", bodyText := "D" }
      = .error (.apiError "boom")
    ∧ strIncludes "boom" (toString 500) = false := by
  exact ⟨rfl, by decide⟩

/-- Claim C8 amended: for every non-2xx response whose body decodes, the
thrown error is the API error whose message is `detail` when that field is
truthy, otherwise `message` when that field is truthy, and only otherwise
the fallback string — which is the sole case carrying the status code. -/
theorem api_error_status_message :
    (∀ (parse : String → Option JsonV) (r : Response) (j : JsonV),
        respOk r = false → decodeBody parse r = .ok j →
        handleResponse parse r =
          .error (.apiError (errorMessage r.status (jsGet j "detail") (jsGet j "message"))))
    ∧ (∀ (status : Nat) (d m : Option JsonV), jsTruthyV d = true →
        errorMessage status d m = jsToMessage (d.getD .null))
    ∧ (∀ (status : Nat) (d m : Option JsonV), jsTruthyV d = false → jsTruthyV m = true →
        errorMessage status d m = jsToMessage (m.getD .null))
    ∧ (∀ (status : Nat) (d m : Option JsonV), jsTruthyV d = false → jsTruthyV m = false →
        strIncludes (errorMessage status d m) (toString status) = true) := by
  refine ⟨?_, ?_, ?_, ?_⟩
  · intro parse r j hok hdec
    unfold handleResponse
    rw [hdec, hok]
    simp
  · intro status d m hd
    unfold errorMessage
    rw [hd]
    simp
  · intro status d m hd hm
    unfold errorMessage
    rw [hd, hm]
    simp
  · intro status d m hd hm
    unfold errorMessage
    rw [hd, hm]
    simpa using strIncludes_append_right "API request failed: " (toString status)

/-- Witness for `api_error_status_message` at a concrete 404 response with
an empty non-JSON body: the fallback error message carries the status. -/
theorem api_error_status_message_witness :
    respOk { status := 404, contentType := none, bodyText := "" } = false
    ∧ decodeBody (fun _ => none) { status := 404, contentType := none, bodyText := "" }
        = .ok (.obj [])
    ∧ handleResponse (fun _ => none) { status := 404, contentType := none, bodyText := "" }
        = .error (.apiError (errorMessage 404 (jsGet (.obj []) "detail") (jsGet (.obj []) "message")))
    ∧ strIncludes (errorMessage 404 none none) (toString 404) = true :=
  ⟨rfl, rfl,
    api_error_status_message.1 (fun _ => none)
      { status := 404, contentType := none, bodyText := "" } (.obj []) rfl rfl,
    (api_error_status_message.2.2.2 404 none none rfl rfl)⟩

/-- Claim C9: for a successful response, a non-JSON empty body decodes to
the empty object, a non-empty body is handed to the JSON reader (whatever
the content type), a reader failure on a non-empty non-JSON body surfaces
as `parseFailure`, and that kind is distinct from the network and API
error kinds. -/
theorem response_decoding (parse : String → Option JsonV) (r : Response) :
    respOk r = true →
    ((ctIsJson r = false → r.bodyText = "" → handleResponse parse r = .ok (.obj []))
     ∧ (ctIsJson r = false → r.bodyText ≠ "" → parse r.bodyText = none →
          handleResponse parse r = .error .parseFailure)
     ∧ (∀ j, r.bodyText ≠ "" → parse r.bodyText = some j → handleResponse parse r = .ok j)
     ∧ (∀ msg, ErrKind.parseFailure ≠ .networkFailure ∧ ErrKind.parseFailure ≠ .apiError msg)) := by
  intro hok
  refine ⟨?_, ?_, ?_, ?_⟩
  · intro hct hempty
    unfold handleResponse decodeBody
    rw [hct, if_pos hempty]
    simp [hok]
  · intro hct hne hparse
    unfold handleResponse decodeBody
    rw [hct, if_neg hne, hparse]
    simp
  · intro j hne hparse
    unfold handleResponse decodeBody
    cases hct : ctIsJson r with
    | true => rw [hparse]; simp [hok]
    | false => rw [if_neg hne, hparse]; simp [hok]
  · intro msg
    exact ⟨by simp, by simp⟩

/-- Witness for `response_decoding`: a 200 response with no content type
and empty body decodes to the empty object. -/
theorem response_decoding_witness :
    respOk { status := 200, contentType := none, bodyText := "" } = true
    ∧ handleResponse (fun _ => none) { status := 200, contentType := none, bodyText := "" }
        = .ok (.obj []) :=
  ⟨rfl, (response_decoding (fun _ => none)
          { status := 200, contentType := none, bodyText := "" } rfl).1 rfl rfl⟩


/-- Claim C10: a successful login whose response body has no
`refresh_token` field leaves the stored refresh token unchanged, in memory
and in `localStorage`, while the access token and the cached `user` entry
are overwritten with the response's values. -/
theorem login_preserves_refresh_token :
    ∀ (s : Store) (data : JsonV) (s3 : Store),
      jsGet data "refresh_token" = none →
      login s true data = .ok s3 →
      s3.refreshToken = s.refreshToken ∧ s3.lsRefresh = s.lsRefresh
      ∧ s3.token = asJsString (jsGet data "access_token")
      ∧ s3.lsAccess = asJsString (jsGet data "access_token")
      ∧ s3.lsUser = some (match jsGet data "user" with
                          | some u => jsonStringify u
                          | none => "undefined") := by
  intro s data s3 hrt hlogin
  unfold login at hlogin
  rw [hrt] at hlogin
  simp only [jsTruthyV] at hlogin
  simp at hlogin
  subst hlogin
  exact ⟨rfl, rfl, rfl, rfl, rfl⟩

/-- Witness for `login_preserves_refresh_token`: a concrete successful
login response carrying only `access_token` and `user` keeps the stored
refresh token `R1`. -/
theorem login_preserves_refresh_token_witness :
    jsGet (.obj [("access_token", .str "A2"), ("user", .obj [])]) "refresh_token" = none
    ∧ login { token := some "A1", refreshToken := some "R1", lsAccess := some "A1",
              lsRefresh := some "R1", lsUser := some "u0" } true
        (.obj [("access_token", .str "A2"), ("user", .obj [])])
        = .ok { token := some "A2", refreshToken := some "R1", lsAccess := some "A2",
                lsRefresh := some "R1", lsUser := some "\x7b\x7d" }
    ∧ (some "R1" : Option String) = some "R1" :=
  ⟨rfl, rfl,
    (login_preserves_refresh_token
      { token := some "A1", refreshToken := some "R1", lsAccess := some "A1",
        lsRefresh := some "R1", lsUser := some "u0" }
      (.obj [("access_token", .str "A2"), ("user", .obj [])])
      { token := some "A2", refreshToken := some "R1", lsAccess := some "A2",
        lsRefresh := some "R1", lsUser := some "\x7b\x7d" }
      rfl rfl).1⟩

theorem refreshWindowInv_step401 (s : Sys) (i : Nat) (d m : Option JsonV)
    (h : RefreshWindowInv s) : RefreshWindowInv (step401 s i d m) := by
  obtain ⟨h1, h2, h3⟩ := h
  unfold step401
  split
  · split
    · split
      · rename_i hcond
        rw [h1] at hcond
        cases hcond
      · exact ⟨h1, h2, h3⟩
    · exact ⟨h1, h2, h3⟩
  · exact ⟨h1, h2, h3⟩

theorem refreshWindowInv_runEvs (evs : List Ev) :
    ∀ s : Sys, (∀ e ∈ evs, e.isResp401 = true) → RefreshWindowInv s →
      RefreshWindowInv (runEvs s evs) := by
  induction evs with
  | nil => intro s _ h; exact h
  | cons e es ih =>
      intro s hall h
      have he := hall e (List.mem_cons_self e es)
      cases e with
      | resp401 i d m =>
          exact ih (step s (.resp401 i d m))
            (fun e' he' => hall e' (List.mem_cons_of_mem _ he'))
            (refreshWindowInv_step401 s i d m h)
      | respOk i => exact absurd he (by simp [Ev.isResp401])
      | refreshOk tok => exact absurd he (by simp [Ev.isResp401])
      | refreshErr => exact absurd he (by simp [Ev.isResp401])

theorem refreshWindowInv_first401 (n : Nat) (acc : Option String) (rt : String)
    (i : Nat) (d m : Option JsonV) (hrt : rt ≠ "") (hi : i < n) :
    RefreshWindowInv (step401 (initSys n acc rt) i d m) := by
  have htask : ((initSys n acc rt).tasks i).phase = .fetching true := by
    simp [initSys, initTask, hi]
  unfold step401
  rw [htask]
  have htruthy : optStrTruthy (initSys n acc rt).store.refreshToken = true := by
    simp [initSys, optStrTruthy, hrt]
  rw [htruthy]
  simp [initSys, RefreshWindowInv, optStrTruthy, hrt]

/-- Claim C1: single-flight refresh. First, in the scenario where `n`
operations are in flight with a refresh token available and the first 401
arrives while no refresh is in flight, after that 401 and any further
batch of 401 responses the `/auth/refresh` endpoint has been invoked
exactly once, with the refresh still in flight. Second, any caller whose
401 arrives while a refresh is in flight is appended to the waiter list
and parked, and does not start a second refresh. -/
theorem single_flight_refresh :
    (∀ (n : Nat) (acc : Option String) (rt : String) (i : Nat)
        (d m : Option JsonV) (evs : List Ev),
        rt ≠ "" → i < n → (∀ e ∈ evs, e.isResp401 = true) →
        (runEvs (initSys n acc rt) (Ev.resp401 i d m :: evs)).refreshCalls = 1
        ∧ (runEvs (initSys n acc rt) (Ev.resp401 i d m :: evs)).isRefreshing = true)
    ∧ (∀ (s : Sys) (j : Nat) (d m : Option JsonV),
        s.isRefreshing = true → (s.tasks j).phase = .fetching true →
        optStrTruthy s.store.refreshToken = true →
        (step s (Ev.resp401 j d m)).refreshCalls = s.refreshCalls
        ∧ (step s (Ev.resp401 j d m)).subscribers = s.subscribers ++ [j]
        ∧ ((step s (Ev.resp401 j d m)).tasks j).phase = .waiting
        ∧ (step s (Ev.resp401 j d m)).isRefreshing = true) := by
  constructor
  · intro n acc rt i d m evs hrt hi hall
    have h0 := refreshWindowInv_first401 n acc rt i d m hrt hi
    have h1 := refreshWindowInv_runEvs evs (step401 (initSys n acc rt) i d m) hall h0
    exact ⟨h1.2.1, h1.1⟩
  · intro s j d m h1 hph h3
    have hstep : step s (Ev.resp401 j d m) = step401 s j d m := rfl
    rw [hstep]
    unfold step401
    rw [hph, h3]
    simp [h1, Function.update_same]

/-- Witness for `single_flight_refresh`: three concurrent operations, all
receiving 401s; the refresh endpoint is called exactly once. -/
theorem single_flight_refresh_witness :
    ("R1" : String) ≠ "" ∧ (0 : Nat) < 3
    ∧ (runEvs (initSys 3 (some "A1") "R1")
        [Ev.resp401 0 none none, Ev.resp401 1 none none, Ev.resp401 2 none none]).refreshCalls = 1 :=
  ⟨by decide, by decide,
    (single_flight_refresh.1 3 (some "A1") "R1" 0 none none
      [Ev.resp401 1 none none, Ev.resp401 2 none none]
      (by decide) (by decide) (by decide)).1⟩

theorem sysInv_step401 (s : Sys) (i : Nat) (d m : Option JsonV) (h : SysInv s) :
    SysInv (step401 s i d m) := by
  obtain ⟨hnd, hsub, htask⟩ := h
  unfold step401
  split
  · rename_i retryOn heq
    have hnotsub : i ∉ s.subscribers := by
      intro hmem
      have hw := hsub i hmem
      rw [heq] at hw
      cases hw
    split
    · rename_i hcond
      have hretry : retryOn = true := by
        have := hcond
        simp at this
        exact this.1
      split
      · refine ⟨hnd, ?_, ?_⟩
        · intro j hj
          have hji : j ≠ i := fun hh => hnotsub (hh ▸ hj)
          simpa [Function.update_noteq hji] using hsub j hj
        · intro j
          by_cases hji : j = i
          · subst hji
            simp only [Function.update_same]
            refine ⟨fun _ => ?_, (htask j).2⟩
            exact (htask j).1 (Or.inl (heq.trans (by rw [hretry])))
          · simp only [Function.update_noteq hji]
            exact htask j
      · refine ⟨?_, ?_, ?_⟩
        · simp [List.nodup_append, hnd, hnotsub]
        · intro j hj
          rcases List.mem_append.mp hj with hj' | hj'
          · have hji : j ≠ i := fun hh => hnotsub (hh ▸ hj')
            simpa [Function.update_noteq hji] using hsub j hj'
          · have hji : j = i := by simpa using hj'
            subst hji
            simp [Function.update_same]
        · intro j
          by_cases hji : j = i
          · subst hji
            simp only [Function.update_same]
            refine ⟨fun _ => ?_, (htask j).2⟩
            exact (htask j).1 (Or.inl (heq.trans (by rw [hretry])))
          · simp only [Function.update_noteq hji]
            exact htask j
    · refine ⟨hnd, ?_, ?_⟩
      · intro j hj
        have hji : j ≠ i := fun hh => hnotsub (hh ▸ hj)
        simpa [Function.update_noteq hji] using hsub j hj
      · intro j
        by_cases hji : j = i
        · subst hji
          simp only [Function.update_same]
          refine ⟨fun hcontra => ?_, (htask j).2⟩
          rcases hcontra with hc | hc | hc <;> cases hc
        · simp only [Function.update_noteq hji]
          exact htask j
  · exact ⟨hnd, hsub, htask⟩

theorem sysInv_stepOk (s : Sys) (i : Nat) (h : SysInv s) : SysInv (stepOk s i) := by
  obtain ⟨hnd, hsub, htask⟩ := h
  unfold stepOk
  split
  · rename_i retryOn heq
    have hnotsub : i ∉ s.subscribers := by
      intro hmem
      have hw := hsub i hmem
      rw [heq] at hw
      cases hw
    refine ⟨hnd, ?_, ?_⟩
    · intro j hj
      have hji : j ≠ i := fun hh => hnotsub (hh ▸ hj)
      simpa [Function.update_noteq hji] using hsub j hj
    · intro j
      by_cases hji : j = i
      · subst hji
        simp only [Function.update_same]
        refine ⟨fun hcontra => ?_, (htask j).2⟩
        rcases hcontra with hc | hc | hc <;> cases hc
      · simp only [Function.update_noteq hji]
        exact htask j
  · exact ⟨hnd, hsub, htask⟩

theorem sysInv_stepRefreshOk (s : Sys) (tok : String) (h : SysInv s) :
    SysInv (stepRefreshOk s tok) := by
  obtain ⟨hnd, hsub, htask⟩ := h
  unfold stepRefreshOk
  split
  · refine ⟨List.nodup_nil, ?_, ?_⟩
    · intro j hj
      cases hj
    · intro j
      dsimp only
      by_cases hjs : j ∈ s.subscribers
      · have hts1 := notifyAll_apply_of_mem (setToken s.store (some tok)).token
          s.subscribers s.tasks j hnd hjs
        have hsent : (s.tasks j).sent = 1 :=
          (htask j).1 (Or.inr (Or.inl (hsub j hjs)))
        rw [hts1]
        have hne : (resend (setToken s.store (some tok)).token (s.tasks j)).phase
            ≠ Phase.awaitingRefresh := by simp [resend]
        rw [if_neg hne]
        constructor
        · intro hcontra
          simp [resend] at hcontra
        · show (s.tasks j).sent + 1 ≤ 2
          omega
      · have hts1 := notifyAll_apply_of_not_mem (setToken s.store (some tok)).token
          s.subscribers s.tasks j hjs
        rw [hts1]
        by_cases hph : (s.tasks j).phase = .awaitingRefresh
        · have hsent : (s.tasks j).sent = 1 := (htask j).1 (Or.inr (Or.inr hph))
          rw [if_pos hph]
          constructor
          · intro hcontra
            simp [resend] at hcontra
          · show (s.tasks j).sent + 1 ≤ 2
            omega
        · rw [if_neg hph]
          exact htask j
  · exact ⟨hnd, hsub, htask⟩

theorem sysInv_stepRefreshErr (s : Sys) (h : SysInv s) : SysInv (stepRefreshErr s) := by
  obtain ⟨hnd, hsub, htask⟩ := h
  unfold stepRefreshErr
  split
  · refine ⟨hnd, ?_, ?_⟩
    · intro j hj
      have hw := hsub j hj
      simp [hw]
    · intro j
      by_cases hph : (s.tasks j).phase = .awaitingRefresh
      · simp only [hph, if_pos]
        refine ⟨fun hcontra => ?_, (htask j).2⟩
        rcases hcontra with hc | hc | hc <;> cases hc
      · simp only [if_neg hph]
        exact htask j
  · exact ⟨hnd, hsub, htask⟩

theorem sysInv_step (s : Sys) (e : Ev) (h : SysInv s) : SysInv (step s e) := by
  cases e with
  | resp401 i d m => exact sysInv_step401 s i d m h
  | respOk i => exact sysInv_stepOk s i h
  | refreshOk tok => exact sysInv_stepRefreshOk s tok h
  | refreshErr => exact sysInv_stepRefreshErr s h

theorem sysInv_runEvs (evs : List Ev) :
    ∀ s : Sys, SysInv s → SysInv (runEvs s evs) := by
  induction evs with
  | nil => intro s h; exact h
  | cons e es ih => intro s h; exact ih (step s e) (sysInv_step s e h)

theorem sysInv_init (n : Nat) (acc : Option String) (rt : String) :
    SysInv (initSys n acc rt) := by
  refine ⟨List.nodup_nil, ?_, ?_⟩
  · intro j hj
    cases hj
  · intro j
    by_cases hj : j < n <;>
      simp [initSys, initTask, idleTask, hj, OpTaskInv]

/-- Claim C3: retry bound. In every reachable state of the scenario
semantics each operation has performed at most two sends — the original
and at most one retry caused by token expiry. Moreover a 401 delivered to
an operation already resent after a refresh (its `retryOnUnauthorized`
flag is false) resolves it with the API authentication error, performs no
further send, and starts no further refresh cycle. -/
theorem retry_bound :
    (∀ (n : Nat) (acc : Option String) (rt : String) (evs : List Ev) (j : Nat),
        ((runEvs (initSys n acc rt) evs).tasks j).sent ≤ 2)
    ∧ (∀ (s : Sys) (j : Nat) (d m : Option JsonV),
        (s.tasks j).phase = .fetching false →
        ((step s (Ev.resp401 j d m)).tasks j).phase
            = .done (.apiError (errorMessage 401 d m))
        ∧ ((step s (Ev.resp401 j d m)).tasks j).sent = (s.tasks j).sent
        ∧ (step s (Ev.resp401 j d m)).refreshCalls = s.refreshCalls
        ∧ (step s (Ev.resp401 j d m)).isRefreshing = s.isRefreshing) := by
  constructor
  · intro n acc rt evs j
    exact ((sysInv_runEvs evs (initSys n acc rt) (sysInv_init n acc rt)).2.2 j).2
  · intro s j d m hph
    have hstep : step s (Ev.resp401 j d m) = step401 s j d m := rfl
    rw [hstep]
    unfold step401
    rw [hph]
    simp [Function.update_same]

/-- Witness for `retry_bound`: a concrete state whose task 0 has already
been retried once; its second 401 surfaces as the API error without a new
refresh or a new send. -/
theorem retry_bound_witness :
    ((retryScenario).tasks 0).phase = .fetching false
    ∧ ((step retryScenario (Ev.resp401 0 none none)).tasks 0).phase
        = .done (.apiError (errorMessage 401 none none)) :=
  ⟨rfl, (retry_bound.2 retryScenario 0 none none rfl).1⟩

theorem runEvs_cons (s : Sys) (e : Ev) (es : List Ev) :
    runEvs s (e :: es) = runEvs (step s e) es := rfl

theorem runEvs_401s_enqueue (rest : List Nat) :
    ∀ s : Sys, s.isRefreshing = true → optStrTruthy s.store.refreshToken = true →
      rest.Nodup → (∀ j ∈ rest, (s.tasks j).phase = .fetching true) →
      enqueuedState s rest (runEvs s (rest.map (fun j => Ev.resp401 j none none))) := by
  induction rest with
  | nil =>
      intro s h1 h2 _ _
      unfold enqueuedState
      refine ⟨rfl, h1, rfl, rfl, (List.append_nil _).symm, ?_, ?_⟩
      · intro j hj
        cases hj
      · intro j _
        rfl
  | cons i rest ih =>
      intro s h1 h2 hnd hph
      obtain ⟨hni, hndr⟩ := List.nodup_cons.mp hnd
      have hphi := hph i (List.mem_cons_self i rest)
      have hstep : step s (Ev.resp401 i none none) =
          { s with subscribers := s.subscribers ++ [i],
                   tasks := Function.update s.tasks i
                     ({ s.tasks i with phase := .waiting }) } := by
        show step401 s i none none = _
        unfold step401
        rw [hphi, h2]
        simp [h1]
      rw [List.map_cons, runEvs_cons, hstep]
      obtain ⟨e1, e2, e3, e4, e5, e6, e7⟩ := ih
        { s with subscribers := s.subscribers ++ [i],
                 tasks := Function.update s.tasks i
                   ({ s.tasks i with phase := .waiting }) }
        h1 h2 hndr
        (by
          intro j hj
          have hji : j ≠ i := fun hh => hni (hh ▸ hj)
          show (Function.update s.tasks i _ j).phase = _
          rw [Function.update_noteq hji]
          exact hph j (List.mem_cons_of_mem i hj))
      refine ⟨e1, e2, e3, e4, ?_, ?_, ?_⟩
      · rw [e5]
        simp
      · intro j hj
        rcases List.mem_cons.mp hj with hj' | hj'
        · subst hj'
          rw [e7 j hni]
          show Function.update s.tasks j _ j = _
          rw [Function.update_same]
        · have hji : j ≠ i := fun hh => hni (hh ▸ hj')
          rw [e6 j hj']
          show ({ (Function.update s.tasks i _ j) with phase := Phase.waiting } : OpTask) = _
          rw [Function.update_noteq hji]
      · intro j hj
        have hji : j ≠ i := fun hh => hj (hh ▸ List.mem_cons_self i rest)
        have hjr : j ∉ rest := fun hh => hj (List.mem_cons_of_mem i hh)
        rw [e7 j hjr]
        show Function.update s.tasks i _ j = _
        rw [Function.update_noteq hji]

/-- Claim C4: fan-out success. When every one of the `n` concurrent
operations receives a 401 (one triggering the refresh, the others queued
as waiters) and the refresh then succeeds with token `tok`, every
operation is resent exactly once (`sent = 2`) carrying
`Authorization: Bearer tok`; the refresh endpoint was hit exactly once;
and a further 401 on any resent operation ends it with the API error —
with no additional send and no further refresh call. -/
theorem fanout_success :
    ∀ (n : Nat) (acc : Option String) (rt tok : String) (i0 : Nat) (rest : List Nat),
      rt ≠ "" → tok ≠ "" → (i0 :: rest).Nodup → (∀ j, j ∈ i0 :: rest ↔ j < n) →
      (∀ j, j < n → (fanoutRun n acc rt tok (i0 :: rest)).tasks j
          = { phase := .fetching false, sent := 2, lastAuth := some ("Bearer " ++ tok) })
      ∧ (fanoutRun n acc rt tok (i0 :: rest)).refreshCalls = 1
      ∧ (∀ (k : Nat) (d m : Option JsonV), k < n →
          ((step (fanoutRun n acc rt tok (i0 :: rest)) (Ev.resp401 k d m)).tasks k).phase
              = .done (.apiError (errorMessage 401 d m))
          ∧ ((step (fanoutRun n acc rt tok (i0 :: rest)) (Ev.resp401 k d m)).tasks k).sent = 2
          ∧ (step (fanoutRun n acc rt tok (i0 :: rest)) (Ev.resp401 k d m)).refreshCalls = 1) := by
  intro n acc rt tok i0 rest hrt htok hnd hcov
  obtain ⟨hni, hndr⟩ := List.nodup_cons.mp hnd
  have hi0 : i0 < n := (hcov i0).mp (List.mem_cons_self i0 rest)
  have hphi : ((initSys n acc rt).tasks i0).phase = .fetching true := by
    simp [initSys, initTask, hi0]
  have h2 : optStrTruthy (initSys n acc rt).store.refreshToken = true := by
    simp [initSys, optStrTruthy, hrt]
  have hstep1 : step (initSys n acc rt) (Ev.resp401 i0 none none) =
      { initSys n acc rt with
          isRefreshing := true,
          refreshCalls := (initSys n acc rt).refreshCalls + 1,
          tasks := Function.update (initSys n acc rt).tasks i0
            ({ (initSys n acc rt).tasks i0 with phase := .awaitingRefresh }) } := by
    show step401 (initSys n acc rt) i0 none none = _
    unfold step401
    rw [hphi, h2]
    have hidle : (initSys n acc rt).isRefreshing = false := rfl
    rw [hidle]
    simp
  have hrun : fanoutRun n acc rt tok (i0 :: rest)
      = stepRefreshOk (runEvs (step (initSys n acc rt) (Ev.resp401 i0 none none))
          (rest.map (fun j => Ev.resp401 j none none))) tok := by
    unfold fanoutRun
    rw [List.map_cons, List.cons_append, runEvs_cons, runEvs_append]
    rfl
  obtain ⟨e1, e2, e3, e4, e5, e6, e7⟩ :=
    runEvs_401s_enqueue rest (step (initSys n acc rt) (Ev.resp401 i0 none none))
      (by rw [hstep1])
      (by rw [hstep1]; exact h2)
      hndr
      (by
        intro j hj
        have hji : j ≠ i0 := fun hh => hni (hh ▸ hj)
        have hjn : j < n := (hcov j).mp (List.mem_cons_of_mem i0 hj)
        rw [hstep1]
        show (Function.update (initSys n acc rt).tasks i0 _ j).phase = _
        rw [Function.update_noteq hji]
        simp [initSys, initTask, hjn])
  have hsubs : (runEvs (step (initSys n acc rt) (Ev.resp401 i0 none none))
      (rest.map (fun j => Ev.resp401 j none none))).subscribers = rest := by
    rw [e5, hstep1]
    rfl
  have hfin : ∀ j : Nat, (stepRefreshOk (runEvs (step (initSys n acc rt) (Ev.resp401 i0 none none))
        (rest.map (fun j => Ev.resp401 j none none))) tok).tasks j =
      (if (notifyAll
            (setToken (runEvs (step (initSys n acc rt) (Ev.resp401 i0 none none))
              (rest.map (fun j => Ev.resp401 j none none))).store (some tok)).token
            (runEvs (step (initSys n acc rt) (Ev.resp401 i0 none none))
              (rest.map (fun j => Ev.resp401 j none none))).tasks
            (runEvs (step (initSys n acc rt) (Ev.resp401 i0 none none))
              (rest.map (fun j => Ev.resp401 j none none))).subscribers j).phase
          = Phase.awaitingRefresh
       then resend
            (setToken (runEvs (step (initSys n acc rt) (Ev.resp401 i0 none none))
              (rest.map (fun j => Ev.resp401 j none none))).store (some tok)).token
            (notifyAll
              (setToken (runEvs (step (initSys n acc rt) (Ev.resp401 i0 none none))
                (rest.map (fun j => Ev.resp401 j none none))).store (some tok)).token
              (runEvs (step (initSys n acc rt) (Ev.resp401 i0 none none))
                (rest.map (fun j => Ev.resp401 j none none))).tasks
              (runEvs (step (initSys n acc rt) (Ev.resp401 i0 none none))
                (rest.map (fun j => Ev.resp401 j none none))).subscribers j)
       else notifyAll
            (setToken (runEvs (step (initSys n acc rt) (Ev.resp401 i0 none none))
              (rest.map (fun j => Ev.resp401 j none none))).store (some tok)).token
            (runEvs (step (initSys n acc rt) (Ev.resp401 i0 none none))
              (rest.map (fun j => Ev.resp401 j none none))).tasks
            (runEvs (step (initSys n acc rt) (Ev.resp401 i0 none none))
              (rest.map (fun j => Ev.resp401 j none none))).subscribers j) := by
    intro j
    unfold stepRefreshOk
    rw [if_pos e2]
  have hti0 : (runEvs (step (initSys n acc rt) (Ev.resp401 i0 none none))
      (rest.map (fun j => Ev.resp401 j none none))).tasks i0
      = { phase := Phase.awaitingRefresh, sent := 1, lastAuth := bearer acc } := by
    rw [e7 i0 hni, hstep1]
    show Function.update (initSys n acc rt).tasks i0 _ i0 = _
    rw [Function.update_same]
    simp [initSys, initTask, hi0]
  have htasks : ∀ j, j < n →
      (stepRefreshOk (runEvs (step (initSys n acc rt) (Ev.resp401 i0 none none))
        (rest.map (fun j => Ev.resp401 j none none))) tok).tasks j
      = { phase := .fetching false, sent := 2, lastAuth := some ("Bearer " ++ tok) } := by
    intro j hjn
    have hmem : j ∈ i0 :: rest := (hcov j).mpr hjn
    rw [hfin j, hsubs]
    rcases List.mem_cons.mp hmem with hji0 | hjrest
    · subst hji0
      rw [notifyAll_apply_of_not_mem _ _ _ _ hni, hti0]
      rw [if_pos rfl]
      simp [resend, bearer, setToken, htok]
    · have hji : j ≠ i0 := fun hh => hni (hh ▸ hjrest)
      have hs2j : (runEvs (step (initSys n acc rt) (Ev.resp401 i0 none none))
          (rest.map (fun j => Ev.resp401 j none none))).tasks j
          = { phase := Phase.waiting, sent := 1, lastAuth := bearer acc } := by
        rw [e6 j hjrest, hstep1]
        show ({ (Function.update (initSys n acc rt).tasks i0 _ j) with
                phase := Phase.waiting } : OpTask) = _
        rw [Function.update_noteq hji]
        simp [initSys, initTask, hjn]
      rw [notifyAll_apply_of_mem _ _ _ _ hndr hjrest, hs2j]
      rw [if_neg (by simp [resend])]
      simp [resend, bearer, setToken, htok]
  have hcalls : (stepRefreshOk (runEvs (step (initSys n acc rt) (Ev.resp401 i0 none none))
      (rest.map (fun j => Ev.resp401 j none none))) tok).refreshCalls = 1 := by
    have hsame : (stepRefreshOk (runEvs (step (initSys n acc rt) (Ev.resp401 i0 none none))
        (rest.map (fun j => Ev.resp401 j none none))) tok).refreshCalls
        = (runEvs (step (initSys n acc rt) (Ev.resp401 i0 none none))
            (rest.map (fun j => Ev.resp401 j none none))).refreshCalls := by
      unfold stepRefreshOk
      rw [if_pos e2]
    rw [hsame, e3, hstep1]
    rfl
  refine ⟨by rw [hrun]; exact htasks, by rw [hrun]; exact hcalls, ?_⟩
  intro k d m hkn
  have htk := htasks k hkn
  rw [hrun]
  have hstepk : step (stepRefreshOk (runEvs (step (initSys n acc rt) (Ev.resp401 i0 none none))
      (rest.map (fun j => Ev.resp401 j none none))) tok) (Ev.resp401 k d m)
      = step401 (stepRefreshOk (runEvs (step (initSys n acc rt) (Ev.resp401 i0 none none))
          (rest.map (fun j => Ev.resp401 j none none))) tok) k d m := rfl
  rw [hstepk]
  unfold step401
  rw [htk]
  refine ⟨?_, ?_, ?_⟩
  · simp [Function.update_same]
  · simp [Function.update_same]
  · simpa using hcalls

/-- Witness for `fanout_success`: five-like concrete scenario with three
operations; task 1 is resent exactly once carrying the new token. -/
theorem fanout_success_witness :
    ("R1" : String) ≠ "" ∧ ("A2" : String) ≠ ""
    ∧ (fanoutRun 3 (some "A1") "R1" "A2" [0, 1, 2]).tasks 1
        = { phase := .fetching false, sent := 2, lastAuth := some ("Bearer " ++ "A2") } :=
  ⟨by decide, by decide,
    (fanout_success 3 (some "A1") "R1" "A2" 0 [1, 2] (by decide) (by decide) (by decide)
      (by intro j; simp; omega)).1 1 (by decide)⟩

/-- Claim C2 fails as stated: after the failure path of lines 120–127 the
queued waiters are never notified — their promises stay pending. Concrete
run: two operations receive 401s (the second is enqueued as a waiter),
then the refresh fails; task 1 is still `waiting`, not rejected, and the
subscriber list still holds it. -/
theorem refresh_failure_waiter_left_pending :
    ((runEvs (initSys 2 (some "A1") "R1")
        [Ev.resp401 0 none none, Ev.resp401 1 none none, Ev.refreshErr]).tasks 1).phase
      = Phase.waiting
    ∧ ((runEvs (initSys 2 (some "A1") "R1")
        [Ev.resp401 0 none none, Ev.resp401 1 none none, Ev.refreshErr]).tasks 1).phase
      ≠ Phase.done Outcome.refreshFailed
    ∧ (runEvs (initSys 2 (some "A1") "R1")
        [Ev.resp401 0 none none, Ev.resp401 1 none none, Ev.refreshErr]).subscribers = [1] := by
  refine ⟨rfl, ?_, rfl⟩
  intro h
  cases h

/-- Claim C2 amended: when the in-flight refresh fails, the triggering
caller is rejected with `refreshFailed`, the whole session is cleared and
the session-expired redirect fires, but the queued waiters are not
rejected — they remain suspended and the subscriber list is untouched. -/
theorem refresh_failure_reported (s : Sys) (i : Nat)
    (h1 : s.isRefreshing = true) (hph : (s.tasks i).phase = .awaitingRefresh) :
    ((step s Ev.refreshErr).store.token = none
      ∧ (step s Ev.refreshErr).store.refreshToken = none
      ∧ (step s Ev.refreshErr).store.lsAccess = none
      ∧ (step s Ev.refreshErr).store.lsRefresh = none
      ∧ (step s Ev.refreshErr).store.lsUser = none)
    ∧ (step s Ev.refreshErr).redirected = true
    ∧ ((step s Ev.refreshErr).tasks i).phase = .done .refreshFailed
    ∧ (∀ j, (s.tasks j).phase = .waiting → ((step s Ev.refreshErr).tasks j).phase = .waiting)
    ∧ (step s Ev.refreshErr).subscribers = s.subscribers := by
  have hstep : step s Ev.refreshErr = stepRefreshErr s := rfl
  rw [hstep]
  unfold stepRefreshErr
  rw [if_pos h1]
  refine ⟨⟨rfl, rfl, rfl, rfl, rfl⟩, rfl, ?_, ?_, rfl⟩
  · dsimp only
    rw [if_pos hph]
  · intro j hw
    dsimp only
    rw [if_neg (by rw [hw]; intro hc; cases hc)]
    exact hw

/-- Witness for `refresh_failure_reported`: the concrete two-operation run
at the point where the refresh is in flight. -/
theorem refresh_failure_reported_witness :
    (runEvs (initSys 2 (some "A1") "R1")
        [Ev.resp401 0 none none, Ev.resp401 1 none none]).isRefreshing = true
    ∧ ((runEvs (initSys 2 (some "A1") "R1")
        [Ev.resp401 0 none none, Ev.resp401 1 none none]).tasks 0).phase = .awaitingRefresh
    ∧ (step (runEvs (initSys 2 (some "A1") "R1")
        [Ev.resp401 0 none none, Ev.resp401 1 none none]) Ev.refreshErr).store.token = none
    ∧ (step (runEvs (initSys 2 (some "A1") "R1")
        [Ev.resp401 0 none none, Ev.resp401 1 none none]) Ev.refreshErr).redirected = true :=
  ⟨rfl, rfl,
    (refresh_failure_reported (runEvs (initSys 2 (some "A1") "R1")
        [Ev.resp401 0 none none, Ev.resp401 1 none none]) 0 rfl rfl).1.1,
    (refresh_failure_reported (runEvs (initSys 2 (some "A1") "R1")
        [Ev.resp401 0 none none, Ev.resp401 1 none none]) 0 rfl rfl).2.1⟩

/-- Claim C5 fails as stated: after a failed refresh the state is back to
not-refreshing while the waiter list is still non-empty (same run as the
C2 counterexample). -/
theorem waiter_list_nonempty_while_idle :
    (runEvs (initSys 2 (some "A1") "R1")
        [Ev.resp401 0 none none, Ev.resp401 1 none none, Ev.refreshErr]).isRefreshing = false
    ∧ (runEvs (initSys 2 (some "A1") "R1")
        [Ev.resp401 0 none none, Ev.resp401 1 none none, Ev.refreshErr]).subscribers ≠ [] := by
  refine ⟨rfl, ?_⟩
  intro h
  cases h

/-- Claim C5 amended: the waiter list starts empty, can only grow while a
refresh is in flight, and is drained by a successful refresh; a failed
refresh leaves it untouched, so it can be non-empty while `isRefreshing`
is false. -/
theorem waiter_list_drained_only_on_success :
    (∀ (n : Nat) (acc : Option String) (rt : String), (initSys n acc rt).subscribers = [])
    ∧ (∀ (s : Sys) (tok : String), s.isRefreshing = true →
        (step s (Ev.refreshOk tok)).subscribers = [])
    ∧ (∀ s : Sys, (step s Ev.refreshErr).subscribers = s.subscribers)
    ∧ (∀ (s : Sys) (i : Nat) (d m : Option JsonV), s.isRefreshing = false →
        (step s (Ev.resp401 i d m)).subscribers = s.subscribers) := by
  refine ⟨fun n acc rt => rfl, ?_, ?_, ?_⟩
  · intro s tok h
    have hstep : step s (Ev.refreshOk tok) = stepRefreshOk s tok := rfl
    rw [hstep]
    unfold stepRefreshOk
    rw [if_pos h]
  · intro s
    have hstep : step s Ev.refreshErr = stepRefreshErr s := rfl
    rw [hstep]
    unfold stepRefreshErr
    split <;> rfl
  · intro s i d m h
    have hstep : step s (Ev.resp401 i d m) = step401 s i d m := rfl
    rw [hstep]
    unfold step401
    split
    · split
      · rw [h]
        simp
      · rfl
    · rfl

/-- Witness for `waiter_list_drained_only_on_success`: the concrete
in-flight-refresh state is drained by a successful refresh. -/
theorem waiter_list_drained_witness :
    (runEvs (initSys 2 (some "A1") "R1")
        [Ev.resp401 0 none none, Ev.resp401 1 none none]).isRefreshing = true
    ∧ (step (runEvs (initSys 2 (some "A1") "R1")
        [Ev.resp401 0 none none, Ev.resp401 1 none none]) (Ev.refreshOk "A2")).subscribers = [] :=
  ⟨rfl, waiter_list_drained_only_on_success.2.1
    (runEvs (initSys 2 (some "A1") "R1")
        [Ev.resp401 0 none none, Ev.resp401 1 none none]) "A2" rfl⟩
